import Mathlib

/-!
Verification of the clocktopus session store and presence-driven timer
reconciliation loop (`monitor` command), as a shallow embedding.

Timestamps: the store keeps ISO-8601 strings and all SQL comparisons
(`ORDER BY startedAt DESC`, `startedAt < ?`) are lexicographic text
comparisons, which agree with chronological order for ISO timestamps.
JavaScript-side times are millisecond numbers from `Date.now()`.  Both are
modelled as `Int` with the usual order; arithmetic such as
`now - lastResumeAt < 10000` is JavaScript number arithmetic, hence `Int`.
-/

namespace Clocktopus

/-- A row of the `sessions` table (`SessionSchema` in `lib/db.ts`).
`completedAt = none` models SQL NULL ("open" session); `isAutoCompleted`
is stored as the numbers 0/1, modelled as `Bool`; `jiraTicket = none`
models SQL NULL. -/
structure Session where
  id : String
  projectId : String
  description : String
  startedAt : Int
  completedAt : Option Int
  isAutoCompleted : Bool
  jiraTicket : Option String
deriving DecidableEq

/-- The `sessions` table in insertion (rowid) order. -/
abbrev Store := List Session

/-- The open sessions of a store: rows whose `completedAt` is NULL. -/
def openSessions (store : Store) : List Session :=
  store.filter fun s => s.completedAt.isNone

/-- Number of open sessions. -/
def openCount (store : Store) : Nat :=
  (openSessions store).length

/-- `logSessionStart` (`lib/db.ts`): INSERT a new row with `completedAt`
NULL and `isAutoCompleted` 0.  `id` is a PRIMARY KEY, so the INSERT throws
on a duplicate id and the table is unchanged: `none` models the throw. -/
def logSessionStart (store : Store) (id projectId description : String)
    (startedAt : Int) (jiraTicket : Option String) : Option Store :=
  if store.any (fun s => s.id == id) then none
  else some (store ++ [{ id := id, projectId := projectId, description := description,
                         startedAt := startedAt, completedAt := none,
                         isAutoCompleted := false, jiraTicket := jiraTicket }])

/-- The row selected by
`SELECT id FROM sessions WHERE completedAt IS NULL ORDER BY startedAt DESC LIMIT 1`:
an open row with maximal `startedAt` (on ties SQLite picks an unspecified
row; the model keeps the earliest such row in table order). -/
def pickLatestOpen : Store → Option Session
  | [] => none
  | s :: rest =>
    match pickLatestOpen rest with
    | none => if s.completedAt.isNone then some s else none
    | some t =>
      if s.completedAt.isNone then
        if t.startedAt > s.startedAt then some t else some s
      else some t

/-- `completeLatestSession` (`lib/db.ts`): UPDATE the row whose id is the
open row with the latest `startedAt`, setting `completedAt` and
`isAutoCompleted`; when no open row exists the subquery is empty and the
UPDATE touches nothing. -/
def completeLatestSession (store : Store) (completedAt : Int)
    (isAutoCompleted : Bool) : Store :=
  match pickLatestOpen store with
  | none => store
  | some t =>
    store.map fun s =>
      if s.id = t.id then
        { s with completedAt := some completedAt,
                 isAutoCompleted := isAutoCompleted }
      else s

/-- The row selected by `SELECT * FROM sessions ORDER BY startedAt DESC LIMIT 1`
(ties as in `pickLatestOpen`). -/
def pickLatest : Store → Option Session
  | [] => none
  | s :: rest =>
    match pickLatest rest with
    | none => some s
    | some t => if t.startedAt > s.startedAt then some t else some s

/-- `getLatestSession` (`lib/db.ts`): returns the row with the latest
`startedAt`.  On an empty table `stmt.get()` is `undefined` and
`SessionSchema.parse(undefined)` throws a ZodError; `Except.error` models
the throw. -/
def getLatestSession (store : Store) : Except String Session :=
  match pickLatest store with
  | none => Except.error "ZodError: expected object, received undefined"
  | some s => Except.ok s

/-- `deleteOldSessions` (`lib/db.ts`):
`DELETE FROM sessions WHERE startedAt < ?` where `?` is the cutoff
timestamp computed from the `days` argument.  The function discards
the change count of `stmt.run` and returns nothing. -/
def deleteOldSessions (store : Store) (cutoff : Int) : Store :=
  store.filter fun s => !decide (s.startedAt < cutoff)

/-- One call against the session table issued by the command surface or the
reconciliation loop: a session insert or a close of the latest open row. -/
inductive StoreOp where
  | append (id projectId description : String) (startedAt : Int)
      (jiraTicket : Option String)
  | close (completedAt : Int) (isAutoCompleted : Bool)
deriving DecidableEq

/-- Effect of one store operation on the table.  A failed INSERT (duplicate
primary key) throws and leaves the table unchanged. -/
def applyOp (store : Store) : StoreOp → Store
  | .append id p d st j => (logSessionStart store id p d st j).getD store
  | .close c a => completeLatestSession store c a

/-- Run a sequence of store operations left to right. -/
def runOps (store : Store) : List StoreOp → Store
  | [] => store
  | op :: rest => runOps (applyOp store op) rest

/-- An append is guarded when it is issued against a table with no open
session (which is how the command surface and the reconciliation loop use
it: they only insert after the previous session was completed). -/
def guardOp (store : Store) : StoreOp → Bool
  | .append _ _ _ _ _ => openCount store == 0
  | .close _ _ => true

/-- Every operation of the sequence is guarded in the state it runs in. -/
def guardedOk (store : Store) : List StoreOp → Bool
  | [] => true
  | op :: rest => guardOp store op && guardedOk (applyOp store op) rest

/-- A remote Clockify time entry currently in progress (the projection of
the remote state the monitor observes and mutates). -/
structure RemoteTimer where
  projectId : String
  description : String
deriving DecidableEq

/-- The state the `monitor` command reads and writes during a tick: the
local session table, the remote active timer, and the closure variables
`lastResumeAt`, `lastIdle` and `isLocked`. -/
structure MonitorState where
  store : Store
  remote : Option RemoteTimer
  lastResumeAt : Int
  lastIdle : Bool
  isLocked : Bool
deriving DecidableEq

/-- Outcome of each remote HTTP call made during one tick; `true` means the
axios call throws and the corresponding catch branch runs (returning null). -/
structure Env where
  getActiveFails : Bool
  stopFails : Bool
  getUserFails : Bool
  startPostFails : Bool
deriving DecidableEq

/-- The externally visible side effects a tick can perform, in program
order: stopping or starting the remote timer, completing or inserting a
local session row, and the best-effort Jira worklog call. -/
inductive Event where
  | remoteStop
  | remoteStart (projectId description : String)
  | dbComplete (completedAt : Int) (auto : Bool)
  | dbAppend (id projectId description : String) (startedAt : Int)
  | jiraLog (ticket : String) (seconds : Int)
deriving DecidableEq

/-- What `clockify.getActiveTimer` returns to the tick: the remote active
timer, or null both when none is running and when the request fails. -/
def observedActive (st : MonitorState) (env : Env) : Option RemoteTimer :=
  if env.getActiveFails then none else st.remote

/-- `Clockify.startTimer` (clockify.ts) as invoked from the resume path,
where no jiraTicket argument is passed, so no Jira lookup happens and
`finalDescription = description`.  `newId` is the generated uuid and
`tStart` the `Date.now()` reading used for `startedAt`.  A failing
`getUser` or POST is caught and returns null with no local write; a
duplicate-id local INSERT throws after the remote timer was already
started, and the catch returns null. -/
def startTimer (st : MonitorState) (env : Env) (projectId description newId : String)
    (tStart : Int) : MonitorState × List Event :=
  if env.getUserFails then (st, [])
  else if env.startPostFails then (st, [])
  else
    let st1 := { st with remote := some { projectId := projectId, description := description } }
    match logSessionStart st1.store newId projectId description tStart none with
    | none => (st1, [Event.remoteStart projectId description])
    | some store2 =>
      ({ st1 with store := store2 },
        [Event.remoteStart projectId description,
         Event.dbAppend newId projectId description tStart])

/-- `stopTimerAndLog` (monitor command, index.ts): observe the active
remote timer (null when absent or when the request fails), read the latest
session, stop the remote timer, complete the local open session, then make
the best-effort Jira worklog call.  `now` is the `Date.now()` reading taken
for `completedAt`.  On an empty table `getLatestSession` throws before the
remote stop; both call sites catch the exception, so the throw behaves like
a `false` return with no state change.  `Math.round(ms / 1000)` is modelled
as `(ms + 500) / 1000` (they agree for the nonnegative durations the
comparison is about). -/
def stopTimerAndLog (st : MonitorState) (env : Env) (now : Int) :
    MonitorState × List Event × Bool :=
  match observedActive st env with
  | none => (st, [], false)
  | some _ =>
    match getLatestSession st.store with
    | .error _ => (st, [], false)
    | .ok latest =>
      if env.stopFails then (st, [], false)
      else
        ({ st with remote := none,
                   store := completeLatestSession st.store now true },
          [Event.remoteStop, Event.dbComplete now true] ++
            (match latest.jiraTicket with
             | some ticket =>
               if (now - latest.startedAt + 500) / 1000 ≥ 60 then
                 [Event.jiraLog ticket ((now - latest.startedAt + 500) / 1000)]
               else []
             | none => []),
          true)

/-- The successive `Date.now()` readings taken while
`safeRestartTimerIfNeeded` runs: at entry (cooldown check), after the
800 ms settle sleep (freshness window), inside `startTimer` (the new
new session `startedAt`), and at the end (stored into `lastResumeAt`).  The
real clock is monotone, so `tCooldown ≤ tCheck ≤ tStart ≤ tAfter`. -/
structure ResumeTimes where
  tCooldown : Int
  tCheck : Int
  tStart : Int
  tAfter : Int
deriving DecidableEq

/-- `safeRestartTimerIfNeeded` (monitor command, index.ts): cooldown gate,
settle sleep, re-read of the latest session (a throw on an empty table is
caught by the tick and acts as a plain return), remote-active guard, then
the eligibility check `isAutoCompleted && completedAt > twoHoursAgo &&
!!projectId` (`!!` on a string is false exactly for the empty string) and
the restart.  `lastResumeAt` is updated even when `startTimer` failed. -/
def safeRestartTimerIfNeeded (st : MonitorState) (env : Env)
    (tm : ResumeTimes) (newId : String) : MonitorState × List Event :=
  if tm.tCooldown - st.lastResumeAt < 10000 then (st, [])
  else
    match getLatestSession st.store with
    | .error _ => (st, [])
    | .ok latest =>
      match observedActive st env with
      | some _ => (st, [])
      | none =>
        if latest.isAutoCompleted
            && decide (latest.completedAt.getD 0 > tm.tCheck - 2 * 60 * 60 * 1000)
            && !latest.projectId.isEmpty then
          match startTimer st env latest.projectId latest.description newId tm.tStart with
          | (st1, ev) => ({ st1 with lastResumeAt := tm.tAfter }, ev)
        else (st, [])

/-- One body of the idle poll `setInterval` (monitor command, index.ts):
stop when the sampled idle time reaches the 300 s threshold, remembering a
successful stop in `lastIdle`; on activity resume only when the previous
ticks had stopped for idleness. -/
def idleTick (st : MonitorState) (env : Env) (idleTime : Int) (now : Int)
    (tm : ResumeTimes) (newId : String) : MonitorState × List Event :=
  if idleTime ≥ 300 then
    match stopTimerAndLog st env now with
    | (st1, ev, stopped) =>
      (if stopped then { st1 with lastIdle := true } else st1, ev)
  else
    if st.lastIdle then
      match safeRestartTimerIfNeeded st env tm newId with
      | (st1, ev) => ({ st1 with lastIdle := false }, ev)
    else ({ st with lastIdle := false }, [])

/-- One body of the macOS lock-state poll (monitor command, index.ts):
stop on a locked edge (`isLocked` is set before the stop runs), resume on
an unlocked edge. -/
def lockTick (st : MonitorState) (env : Env) (locked : Bool) (now : Int)
    (tm : ResumeTimes) (newId : String) : MonitorState × List Event :=
  if locked && !st.isLocked then
    match stopTimerAndLog { st with isLocked := true } env now with
    | (st1, ev, _) => (st1, ev)
  else if !locked && st.isLocked then
    match safeRestartTimerIfNeeded st env tm newId with
    | (st1, ev) => ({ st1 with isLocked := false }, ev)
  else (st, [])

/-- Number of remote timer starts (resumes) in a list of tick events. -/
def countResumes (ev : List Event) : Nat :=
  ev.countP fun e =>
    match e with
    | Event.remoteStart _ _ => true
    | _ => false

theorem openCount_eq_countP (store : Store) :
    openCount store = store.countP fun s => s.completedAt.isNone :=
  (List.countP_eq_length_filter _ _).symm

theorem openCount_completeLatestSession_le (store : Store) (c : Int)
    (a : Bool) :
    openCount (completeLatestSession store c a) ≤ openCount store := by
  unfold completeLatestSession
  cases hp : pickLatestOpen store with
  | none => exact le_rfl
  | some t =>
    rw [openCount_eq_countP, openCount_eq_countP, List.countP_map]
    refine List.countP_mono_left fun s _ h => ?_
    by_cases hid : s.id = t.id
    · simp [Function.comp, hid] at h
    · simpa [Function.comp, hid] using h

theorem openCount_append_le (store : Store) (id p d : String) (st : Int)
    (j : Option String) :
    openCount (applyOp store (.append id p d st j)) ≤ openCount store + 1 := by
  unfold applyOp logSessionStart
  by_cases hdup : store.any (fun s => s.id == id) = true
  · simp [hdup]
  · simp only [hdup, if_neg, Bool.not_eq_true, Option.getD_some, ite_false]
    simp [openCount, openSessions, List.filter_append]

theorem guardedOk_of_append (pre : List StoreOp) :
    ∀ (store : Store) (suf : List StoreOp),
      guardedOk store (pre ++ suf) = true → guardedOk store pre = true := by
  induction pre with
  | nil => intro store suf _; rfl
  | cons op rest ih =>
    intro store suf h
    simp only [List.cons_append, guardedOk, Bool.and_eq_true] at h ⊢
    exact ⟨h.1, ih _ _ h.2⟩

theorem openCount_runOps_le (ops : List StoreOp) :
    ∀ store : Store, openCount store ≤ 1 → guardedOk store ops = true →
      openCount (runOps store ops) ≤ 1 := by
  induction ops with
  | nil => intro store h _; exact h
  | cons op rest ih =>
    intro store h hg
    simp only [guardedOk, Bool.and_eq_true] at hg
    refine ih _ ?_ hg.2
    cases op with
    | append id p d st j =>
      have h0 : openCount store = 0 := by
        simpa [guardOp] using hg.1
      calc openCount (applyOp store (.append id p d st j))
          ≤ openCount store + 1 := openCount_append_le store id p d st j
        _ = 1 := by rw [h0]
    | close c a =>
      exact le_trans (openCount_completeLatestSession_le store c a) h

theorem pickLatestOpen_cons_none (s : Session) (rest : Store)
    (hr : pickLatestOpen rest = none) :
    pickLatestOpen (s :: rest) =
      if s.completedAt.isNone then some s else none := by
  rw [pickLatestOpen, hr]

theorem pickLatestOpen_cons_some (s : Session) (rest : Store) (t : Session)
    (hr : pickLatestOpen rest = some t) :
    pickLatestOpen (s :: rest) =
      if s.completedAt.isNone then
        if t.startedAt > s.startedAt then some t else some s
      else some t := by
  rw [pickLatestOpen, hr]

theorem pickLatestOpen_none_closed (l : Store) :
    pickLatestOpen l = none → ∀ u ∈ l, u.completedAt ≠ none := by
  induction l with
  | nil => intro _ u hu; exact absurd hu (List.not_mem_nil u)
  | cons s rest ih =>
    intro h u hu
    cases hr : pickLatestOpen rest with
    | none =>
      rw [pickLatestOpen_cons_none s rest hr] at h
      by_cases hs : s.completedAt.isNone
      · rw [if_pos hs] at h; exact absurd h (by simp)
      · rcases List.mem_cons.mp hu with rfl | hu2
        · simpa [Option.isNone_iff_eq_none] using hs
        · exact ih hr u hu2
    | some t =>
      rw [pickLatestOpen_cons_some s rest t hr] at h
      by_cases hs : s.completedAt.isNone
      · rw [if_pos hs] at h
        by_cases hgt : t.startedAt > s.startedAt
        · rw [if_pos hgt] at h; exact absurd h (by simp)
        · rw [if_neg hgt] at h; exact absurd h (by simp)
      · rw [if_neg hs] at h; exact absurd h (by simp)

theorem pickLatestOpen_some_spec (l : Store) :
    ∀ t, pickLatestOpen l = some t →
      t ∈ l ∧ t.completedAt = none ∧
        ∀ u ∈ l, u.completedAt = none → u.startedAt ≤ t.startedAt := by
  induction l with
  | nil => intro t h; exact absurd h (by simp [pickLatestOpen])
  | cons s rest ih =>
    intro t h
    cases hr : pickLatestOpen rest with
    | none =>
      rw [pickLatestOpen_cons_none s rest hr] at h
      have hrest := pickLatestOpen_none_closed rest hr
      by_cases hs : s.completedAt.isNone
      · rw [if_pos hs] at h
        obtain rfl : s = t := by simpa using h
        refine ⟨List.mem_cons_self s rest, Option.isNone_iff_eq_none.mp hs, ?_⟩
        intro u hu hopen
        rcases List.mem_cons.mp hu with rfl | hu2
        · exact le_rfl
        · exact absurd hopen (hrest u hu2)
      · rw [if_neg hs] at h; exact absurd h (by simp)
    | some t0 =>
      rw [pickLatestOpen_cons_some s rest t0 hr] at h
      obtain ⟨ht0mem, ht0open, ht0max⟩ := ih t0 hr
      by_cases hs : s.completedAt.isNone
      · rw [if_pos hs] at h
        by_cases hgt : t0.startedAt > s.startedAt
        · rw [if_pos hgt] at h
          obtain rfl : t0 = t := by simpa using h
          refine ⟨List.mem_cons_of_mem s ht0mem, ht0open, ?_⟩
          intro u hu hopen
          rcases List.mem_cons.mp hu with rfl | hu2
          · exact le_of_lt hgt
          · exact ht0max u hu2 hopen
        · rw [if_neg hgt] at h
          obtain rfl : s = t := by simpa using h
          refine ⟨List.mem_cons_self s rest, Option.isNone_iff_eq_none.mp hs, ?_⟩
          intro u hu hopen
          rcases List.mem_cons.mp hu with rfl | hu2
          · exact le_rfl
          · exact le_trans (ht0max u hu2 hopen) (not_lt.mp hgt)
      · rw [if_neg hs] at h
        obtain rfl : t0 = t := by simpa using h
        refine ⟨List.mem_cons_of_mem s ht0mem, ht0open, ?_⟩
        intro u hu hopen
        rcases List.mem_cons.mp hu with rfl | hu2
        · exact absurd hopen (by simpa [Option.isNone_iff_eq_none] using hs)
        · exact ht0max u hu2 hopen

theorem pickLatestOpen_of_closed (l : Store)
    (h : ∀ u ∈ l, u.completedAt ≠ none) : pickLatestOpen l = none := by
  induction l with
  | nil => rfl
  | cons s rest ih =>
    rw [pickLatestOpen,
      ih fun u hu => h u (List.mem_cons_of_mem s hu)]
    have hs : ¬ s.completedAt.isNone := by
      simpa [Option.isNone_iff_eq_none] using h s (List.mem_cons_self s rest)
    rw [if_neg hs]

theorem completeLatestSession_of_closed (store : Store) (c : Int) (a : Bool)
    (h : ∀ u ∈ store, u.completedAt ≠ none) :
    completeLatestSession store c a = store := by
  unfold completeLatestSession
  rw [pickLatestOpen_of_closed store h]

theorem map_eq_self_of_mem {α : Type} (f : α → α) :
    ∀ l : List α, (∀ a ∈ l, f a = a) → l.map f = l := by
  intro l
  induction l with
  | nil => intro _; rfl
  | cons x xs ih =>
    intro h
    rw [List.map_cons, h x (List.mem_cons_self x xs),
      ih fun a ha => h a (List.mem_cons_of_mem x ha)]

theorem pickLatest_isSome (l : Store) (h : l ≠ []) :
    (pickLatest l).isSome = true := by
  cases l with
  | nil => exact absurd rfl h
  | cons s rest =>
    rw [pickLatest]
    cases hpr : pickLatest rest with
    | none => rfl
    | some t =>
      by_cases h2 : t.startedAt > s.startedAt
      · simp [h2]
      · simp [h2]

theorem safeRestart_blocked (st : MonitorState) (env : Env)
    (tm : ResumeTimes) (newId : String)
    (h : tm.tCooldown - st.lastResumeAt < 10000) :
    safeRestartTimerIfNeeded st env tm newId = (st, []) := by
  unfold safeRestartTimerIfNeeded
  rw [if_pos h]

theorem countResumes_startTimer_le (st : MonitorState) (env : Env)
    (p d newId : String) (tStart : Int) :
    countResumes (startTimer st env p d newId tStart).2 ≤ 1 := by
  unfold startTimer
  by_cases h1 : env.getUserFails = true
  · simp [h1, countResumes]
  · by_cases h2 : env.startPostFails = true
    · simp [h1, h2, countResumes]
    · simp only [h1, h2, Bool.false_eq_true, if_false]
      cases hls : logSessionStart st.store newId p d tStart none with
      | none => simp [countResumes]
      | some store2 => simp [countResumes]

theorem safeRestart_shape (st : MonitorState) (env : Env)
    (tm : ResumeTimes) (newId : String) :
    safeRestartTimerIfNeeded st env tm newId = (st, []) ∨
    ∃ latest : Session,
      safeRestartTimerIfNeeded st env tm newId =
        ({ (startTimer st env latest.projectId latest.description newId tm.tStart).1
            with lastResumeAt := tm.tAfter },
          (startTimer st env latest.projectId latest.description newId tm.tStart).2) := by
  unfold safeRestartTimerIfNeeded
  split
  · exact Or.inl rfl
  · split
    · exact Or.inl rfl
    · rename_i latest heq
      split
      · exact Or.inl rfl
      · split
        · refine Or.inr ⟨latest, ?_⟩
          rcases hst : startTimer st env latest.projectId latest.description newId tm.tStart
            with ⟨st1, ev⟩
          rfl
        · exact Or.inl rfl

theorem countResumes_safeRestart_le (st : MonitorState) (env : Env)
    (tm : ResumeTimes) (newId : String) :
    countResumes (safeRestartTimerIfNeeded st env tm newId).2 ≤ 1 := by
  rcases safeRestart_shape st env tm newId with h | ⟨latest, h⟩
  · rw [h]; simp [countResumes]
  · rw [h]
    exact countResumes_startTimer_le st env latest.projectId latest.description newId tm.tStart

/-- C1 (amended): the raw store operations do not themselves enforce the
invariant, but for every operation sequence from the empty store in which
each `logSessionStart` runs against a table with no open session — which is
how the command surface and the reconciliation loop issue it — every
intermediate store state has at most one session with `completedAt`
absent. -/
theorem C1_at_most_one_open_of_guarded (ops pre suf : List StoreOp)
    (hsplit : ops = pre ++ suf) (hguard : guardedOk [] ops = true) :
    openCount (runOps [] pre) ≤ 1 := by
  subst hsplit
  exact openCount_runOps_le pre [] (by decide) (guardedOk_of_append pre [] suf hguard)

/-- C1 witness: a guarded append/close sequence, split after the append,
keeps at most one open session. -/
theorem C1_at_most_one_open_of_guarded_witness :
    ([StoreOp.append "a" "p" "d" 0 none, StoreOp.close 5 false]
        = [StoreOp.append "a" "p" "d" 0 none] ++ [StoreOp.close 5 false]) ∧
    guardedOk [] [StoreOp.append "a" "p" "d" 0 none, StoreOp.close 5 false] = true ∧
    openCount (runOps [] [StoreOp.append "a" "p" "d" 0 none]) ≤ 1 :=
  ⟨rfl, by decide,
    C1_at_most_one_open_of_guarded
      [StoreOp.append "a" "p" "d" 0 none, StoreOp.close 5 false]
      [StoreOp.append "a" "p" "d" 0 none] [StoreOp.close 5 false] rfl (by decide)⟩

/-- C1 counterexample: two `logSessionStart` calls with distinct ids and no
intervening close are a sequence of the store operations that leaves two
sessions with `completedAt` absent, refuting the claim as stated over all
sequences of `logSessionStart`/`completeLatestSession`. -/
theorem C1_counterexample :
    openCount (runOps []
      [StoreOp.append "a" "p" "d" 0 none,
       StoreOp.append "b" "p" "d" 1 none]) = 2 := by
  decide

/-- C2 (amended): `deleteOldSessions` keeps exactly the sessions whose
`startedAt` is not strictly before the cutoff: everything strictly older is
removed — the open session included, there is no special case for it — and
nothing at or after the cutoff is removed.  No removal count is returned. -/
theorem C2_purge_membership (store : Store) (cutoff : Int) (s : Session) :
    s ∈ deleteOldSessions store cutoff ↔ s ∈ store ∧ ¬ s.startedAt < cutoff := by
  simp [deleteOldSessions, List.mem_filter]

/-- C2 counterexample: an open session (`completedAt` NULL) whose
`startedAt` predates the cutoff is deleted by `deleteOldSessions`,
refuting "never deletes the current open session". -/
theorem C2_counterexample :
    (({ id := "a", projectId := "p", description := "d", startedAt := 0,
        completedAt := none, isAutoCompleted := false,
        jiraTicket := none } : Session).completedAt = none) ∧
    deleteOldSessions
      [{ id := "a", projectId := "p", description := "d", startedAt := 0,
         completedAt := none, isAutoCompleted := false,
         jiraTicket := none }] 10 = [] := by
  exact ⟨rfl, rfl⟩

/-- C3 (code bug): on an empty sessions table `stmt.get()` is undefined and
`SessionSchema.parse(undefined)` throws a ZodError instead of returning an
absent value, although both callers guard for an absent result
(`if (!latestSession) return` and `latestSession?.jiraTicket`). -/
theorem C3_empty_store_throws :
    getLatestSession ([] : Store) =
      Except.error "ZodError: expected object, received undefined" := rfl

/-- C8: `completeLatestSession` is a no-op when no session is open, and
otherwise — with the table holding unique primary-key ids, as the schema
enforces — rewrites exactly one row: an open one whose `startedAt` is
maximal among open rows, receiving the given `completedAt` and
`isAutoCompleted`, every other row left unchanged. -/
theorem C8_close_exactly_latest_open (store : Store) (c : Int) (a : Bool)
    (hnodup : (store.map Session.id).Nodup) :
    ((∀ u ∈ store, u.completedAt ≠ none) →
        completeLatestSession store c a = store) ∧
    (∀ s0 ∈ store, s0.completedAt = none →
      ∃ pre t suf, store = pre ++ t :: suf ∧ t.completedAt = none ∧
        (∀ u ∈ store, u.completedAt = none → u.startedAt ≤ t.startedAt) ∧
        completeLatestSession store c a =
          pre ++ { t with completedAt := some c, isAutoCompleted := a } :: suf) := by
  constructor
  · exact completeLatestSession_of_closed store c a
  · intro s0 hs0 hs0open
    cases hp : pickLatestOpen store with
    | none => exact absurd hs0open (pickLatestOpen_none_closed store hp s0 hs0)
    | some t =>
      obtain ⟨htmem, htopen, htmax⟩ := pickLatestOpen_some_spec store t hp
      obtain ⟨pre, suf, hsplit⟩ := List.append_of_mem htmem
      refine ⟨pre, t, suf, hsplit, htopen, htmax, ?_⟩
      have hres : completeLatestSession store c a =
          store.map fun s => if s.id = t.id then
            { s with completedAt := some c, isAutoCompleted := a } else s := by
        unfold completeLatestSession
        rw [hp]
      rw [hsplit, List.map_append, List.map_cons] at hres
      rw [hsplit] at hnodup
      rw [List.map_append, List.map_cons] at hnodup
      obtain ⟨hnp, hnc, hdisj⟩ := List.nodup_append.mp hnodup
      have htid_suf : t.id ∉ suf.map Session.id := (List.nodup_cons.mp hnc).1
      have htid_pre : t.id ∉ pre.map Session.id := fun hmem =>
        hdisj hmem (List.mem_cons_self _ _)
      have hpre : pre.map (fun s => if s.id = t.id then
          { s with completedAt := some c, isAutoCompleted := a } else s) = pre :=
        map_eq_self_of_mem _ pre fun u hu =>
          if_neg fun (he : u.id = t.id) =>
            htid_pre (he ▸ List.mem_map_of_mem Session.id hu)
      have hsuf : suf.map (fun s => if s.id = t.id then
          { s with completedAt := some c, isAutoCompleted := a } else s) = suf :=
        map_eq_self_of_mem _ suf fun u hu =>
          if_neg fun (he : u.id = t.id) =>
            htid_suf (he ▸ List.mem_map_of_mem Session.id hu)
      have hft : (if t.id = t.id then
          { t with completedAt := some c, isAutoCompleted := a } else t) =
          { t with completedAt := some c, isAutoCompleted := a } := if_pos rfl
      rw [hpre, hsuf, hft] at hres
      rw [hsplit]
      exact hres

/-- C8 witness: a one-row table with an open session is rewritten to that
row completed. -/
theorem C8_close_exactly_latest_open_witness :
    (([{ id := "a", projectId := "p", description := "d", startedAt := 0,
         completedAt := none, isAutoCompleted := false,
         jiraTicket := none }] : Store).map Session.id).Nodup ∧
    (∃ pre t suf,
      ([{ id := "a", projectId := "p", description := "d", startedAt := 0,
          completedAt := none, isAutoCompleted := false,
          jiraTicket := none }] : Store) = pre ++ t :: suf ∧
      t.completedAt = none ∧
      (∀ u ∈ ([{ id := "a", projectId := "p", description := "d", startedAt := 0,
                 completedAt := none, isAutoCompleted := false,
                 jiraTicket := none }] : Store),
        u.completedAt = none → u.startedAt ≤ t.startedAt) ∧
      completeLatestSession
          [{ id := "a", projectId := "p", description := "d", startedAt := 0,
             completedAt := none, isAutoCompleted := false,
             jiraTicket := none }] 7 true =
        pre ++ { t with completedAt := some 7, isAutoCompleted := true } :: suf) :=
  ⟨by decide,
    (C8_close_exactly_latest_open
        [{ id := "a", projectId := "p", description := "d", startedAt := 0,
           completedAt := none, isAutoCompleted := false,
           jiraTicket := none }] 7 true (by decide)).2
      { id := "a", projectId := "p", description := "d", startedAt := 0,
        completedAt := none, isAutoCompleted := false, jiraTicket := none }
      (List.mem_singleton.mpr rfl) rfl⟩

/-- C9: under the data-model invariant (at most one open session in the
store), a second `completeLatestSession`, with any arguments, leaves the
store exactly as it was after the first call. -/
theorem C9_close_idempotent (store : Store) (c1 c2 : Int) (a1 a2 : Bool)
    (hopen : openCount store ≤ 1) :
    completeLatestSession (completeLatestSession store c1 a1) c2 a2 =
      completeLatestSession store c1 a1 := by
  cases hp : pickLatestOpen store with
  | none =>
    have h0 : completeLatestSession store c1 a1 = store :=
      completeLatestSession_of_closed store c1 a1
        (pickLatestOpen_none_closed store hp)
    rw [h0]
    exact completeLatestSession_of_closed store c2 a2
      (pickLatestOpen_none_closed store hp)
  | some t =>
    obtain ⟨htmem, htopen, _⟩ := pickLatestOpen_some_spec store t hp
    have hres : completeLatestSession store c1 a1 =
        store.map fun s => if s.id = t.id then
          { s with completedAt := some c1, isAutoCompleted := a1 } else s := by
      unfold completeLatestSession
      rw [hp]
    have hclosed : ∀ u ∈ completeLatestSession store c1 a1,
        u.completedAt ≠ none := by
      rw [hres]
      intro u hu
      obtain ⟨v, hv, rfl⟩ := List.mem_map.mp hu
      by_cases hid : v.id = t.id
      · simp [hid]
      · rw [if_neg hid]
        intro hvopen
        have hvf : v ∈ openSessions store :=
          List.mem_filter.mpr ⟨hv, by simp [hvopen]⟩
        have htf : t ∈ openSessions store :=
          List.mem_filter.mpr ⟨htmem, by simp [htopen]⟩
        have hlen : (openSessions store).length ≤ 1 := hopen
        cases hos : openSessions store with
        | nil =>
          rw [hos] at htf
          exact List.not_mem_nil t htf
        | cons x xs =>
          cases xs with
          | nil =>
            rw [hos] at hvf htf
            have hv1 : v = x := by simpa using hvf
            have ht1 : t = x := by simpa using htf
            exact hid (congrArg Session.id (hv1.trans ht1.symm))
          | cons y ys =>
            rw [hos] at hlen
            simp at hlen
    exact completeLatestSession_of_closed _ c2 a2 hclosed

/-- C9 witness: a store with one open session; the second close with
different arguments changes nothing more. -/
theorem C9_close_idempotent_witness :
    openCount [{ id := "a", projectId := "p", description := "d", startedAt := 0,
                 completedAt := none, isAutoCompleted := false,
                 jiraTicket := none }] ≤ 1 ∧
    completeLatestSession
        (completeLatestSession
          [{ id := "a", projectId := "p", description := "d", startedAt := 0,
             completedAt := none, isAutoCompleted := false,
             jiraTicket := none }] 5 true) 9 false =
      completeLatestSession
        [{ id := "a", projectId := "p", description := "d", startedAt := 0,
           completedAt := none, isAutoCompleted := false,
           jiraTicket := none }] 5 true :=
  ⟨by decide,
    C9_close_idempotent
      [{ id := "a", projectId := "p", description := "d", startedAt := 0,
         completedAt := none, isAutoCompleted := false,
         jiraTicket := none }] 5 9 true false (by decide)⟩

/-- C10: when the tick observes no active remote timer (absent, or the
lookup failed), or the remote stop call fails, `stopTimerAndLog` performs no
side effect at all: the store and remote state are untouched, no event is
emitted, and in particular `completeLatestSession` is not invoked. -/
theorem C10_no_stop_no_local_change (st : MonitorState) (env : Env) (now : Int)
    (h : observedActive st env = none ∨ env.stopFails = true) :
    stopTimerAndLog st env now = (st, [], false) := by
  unfold stopTimerAndLog
  split
  · rfl
  · rename_i rt hobs
    rcases h with h | h
    · rw [hobs] at h
      exact absurd h (by simp)
    · split
      · rfl
      · rw [if_pos h]

/-- C10 witness: a failing stop call with an active remote timer leaves the
tick with no effect. -/
theorem C10_no_stop_no_local_change_witness :
    (observedActive
        { store := [{ id := "a", projectId := "p", description := "d", startedAt := 0,
                      completedAt := none, isAutoCompleted := false,
                      jiraTicket := none }],
          remote := some { projectId := "p", description := "d" },
          lastResumeAt := 0, lastIdle := false, isLocked := false }
        { getActiveFails := false, stopFails := true, getUserFails := false,
          startPostFails := false } = none ∨
      ({ getActiveFails := false, stopFails := true, getUserFails := false,
         startPostFails := false } : Env).stopFails = true) ∧
    stopTimerAndLog
        { store := [{ id := "a", projectId := "p", description := "d", startedAt := 0,
                      completedAt := none, isAutoCompleted := false,
                      jiraTicket := none }],
          remote := some { projectId := "p", description := "d" },
          lastResumeAt := 0, lastIdle := false, isLocked := false }
        { getActiveFails := false, stopFails := true, getUserFails := false,
          startPostFails := false } 50 =
      ({ store := [{ id := "a", projectId := "p", description := "d", startedAt := 0,
                     completedAt := none, isAutoCompleted := false,
                     jiraTicket := none }],
         remote := some { projectId := "p", description := "d" },
         lastResumeAt := 0, lastIdle := false, isLocked := false }, [], false) :=
  ⟨Or.inr rfl,
    C10_no_stop_no_local_change
      { store := [{ id := "a", projectId := "p", description := "d", startedAt := 0,
                    completedAt := none, isAutoCompleted := false,
                    jiraTicket := none }],
        remote := some { projectId := "p", description := "d" },
        lastResumeAt := 0, lastIdle := false, isLocked := false }
      { getActiveFails := false, stopFails := true, getUserFails := false,
        startPostFails := false } 50 (Or.inr rfl)⟩

/-- C7: when the latest session was completed 3 hours before the freshness
check, a transition-to-active resume attempt does nothing: no remote timer
is started, no session is appended, the whole monitor state is unchanged. -/
theorem C7_stale_session_not_resumed (st : MonitorState) (env : Env)
    (tm : ResumeTimes) (newId : String) (s : Session)
    (hlatest : pickLatest st.store = some s)
    (hstale : s.completedAt = some (tm.tCheck - 3 * 60 * 60 * 1000)) :
    safeRestartTimerIfNeeded st env tm newId = (st, []) := by
  have hgl : getLatestSession st.store = Except.ok s := by
    simp [getLatestSession, hlatest]
  unfold safeRestartTimerIfNeeded
  split
  · rfl
  · split
    · rfl
    · rename_i latest heq
      rw [hgl] at heq
      injection heq with heq2
      subst heq2
      split
      · rfl
      · have hcond : (s.isAutoCompleted
            && decide (s.completedAt.getD 0 > tm.tCheck - 2 * 60 * 60 * 1000)
            && !s.projectId.isEmpty) = false := by
          rw [hstale]
          have hlt : ¬ (tm.tCheck - 3 * 60 * 60 * 1000 >
              tm.tCheck - 2 * 60 * 60 * 1000) := by
            omega
          simp [hlt]
        rw [hcond]
        simp

/-- C7 witness: a session auto-completed 3 h before the check is skipped by
the resume routine. -/
theorem C7_stale_session_not_resumed_witness :
    pickLatest [{ id := "a", projectId := "p", description := "d", startedAt := 0,
                  completedAt := some (20000000 - 3 * 60 * 60 * 1000),
                  isAutoCompleted := true, jiraTicket := none }] =
      some { id := "a", projectId := "p", description := "d", startedAt := 0,
             completedAt := some (20000000 - 3 * 60 * 60 * 1000),
             isAutoCompleted := true, jiraTicket := none } ∧
    safeRestartTimerIfNeeded
        { store := [{ id := "a", projectId := "p", description := "d", startedAt := 0,
                      completedAt := some (20000000 - 3 * 60 * 60 * 1000),
                      isAutoCompleted := true, jiraTicket := none }],
          remote := none, lastResumeAt := 0, lastIdle := true,
          isLocked := false }
        { getActiveFails := false, stopFails := false, getUserFails := false,
          startPostFails := false }
        { tCooldown := 19999000, tCheck := 20000000, tStart := 20000100,
          tAfter := 20000200 } "b" =
      ({ store := [{ id := "a", projectId := "p", description := "d", startedAt := 0,
                     completedAt := some (20000000 - 3 * 60 * 60 * 1000),
                     isAutoCompleted := true, jiraTicket := none }],
         remote := none, lastResumeAt := 0, lastIdle := true,
         isLocked := false }, []) :=
  ⟨by decide,
    C7_stale_session_not_resumed
      { store := [{ id := "a", projectId := "p", description := "d", startedAt := 0,
                    completedAt := some (20000000 - 3 * 60 * 60 * 1000),
                    isAutoCompleted := true, jiraTicket := none }],
        remote := none, lastResumeAt := 0, lastIdle := true, isLocked := false }
      { getActiveFails := false, stopFails := false, getUserFails := false,
        startPostFails := false }
      { tCooldown := 19999000, tCheck := 20000000, tStart := 20000100,
        tAfter := 20000200 } "b"
      { id := "a", projectId := "p", description := "d", startedAt := 0,
        completedAt := some (20000000 - 3 * 60 * 60 * 1000),
        isAutoCompleted := true, jiraTicket := none }
      (by decide) rfl⟩

/-- C5: with a monotone clock, two back-to-back resume attempts whose entry
times are less than 10 s apart start at most one remote timer between them:
a resume arms the cooldown (`lastResumeAt`), and the second attempt returns
before touching the remote service or the store. -/
theorem C5_cooldown_at_most_one_resume (st : MonitorState) (env1 env2 : Env)
    (tm1 tm2 : ResumeTimes) (id1 id2 : String)
    (hmono : tm1.tCooldown ≤ tm1.tAfter)
    (hgap : tm2.tCooldown - tm1.tCooldown < 10000) :
    countResumes ((safeRestartTimerIfNeeded st env1 tm1 id1).2 ++
      (safeRestartTimerIfNeeded
        (safeRestartTimerIfNeeded st env1 tm1 id1).1 env2 tm2 id2).2) ≤ 1 := by
  rcases safeRestart_shape st env1 tm1 id1 with h1 | ⟨latest, h1⟩
  · rw [h1]
    simp only [List.nil_append]
    exact countResumes_safeRestart_le st env2 tm2 id2
  · rw [h1]
    have hblocked : tm2.tCooldown -
        ({ (startTimer st env1 latest.projectId latest.description id1 tm1.tStart).1
            with lastResumeAt := tm1.tAfter } : MonitorState).lastResumeAt
          < 10000 := by
      show tm2.tCooldown - tm1.tAfter < 10000
      linarith
    rw [safeRestart_blocked _ env2 tm2 id2 hblocked]
    unfold countResumes
    rw [List.countP_append]
    simp only [List.countP_nil, Nat.add_zero]
    exact countResumes_startTimer_le st env1 latest.projectId latest.description id1 tm1.tStart

/-- C5 witness: two resume attempts 5 s apart on an eligible state perform
one resume in total. -/
theorem C5_cooldown_at_most_one_resume_witness :
    (({ tCooldown := 20000, tCheck := 20800, tStart := 20900,
        tAfter := 21000 } : ResumeTimes).tCooldown ≤
      ({ tCooldown := 20000, tCheck := 20800, tStart := 20900,
         tAfter := 21000 } : ResumeTimes).tAfter) ∧
    (({ tCooldown := 25000, tCheck := 25800, tStart := 25900,
        tAfter := 26000 } : ResumeTimes).tCooldown -
      ({ tCooldown := 20000, tCheck := 20800, tStart := 20900,
         tAfter := 21000 } : ResumeTimes).tCooldown < 10000) ∧
    countResumes ((safeRestartTimerIfNeeded
        { store := [{ id := "a", projectId := "p", description := "d", startedAt := 0,
                      completedAt := some 19000, isAutoCompleted := true,
                      jiraTicket := none }],
          remote := none, lastResumeAt := 0, lastIdle := true,
          isLocked := false }
        { getActiveFails := false, stopFails := false, getUserFails := false,
          startPostFails := false }
        { tCooldown := 20000, tCheck := 20800, tStart := 20900,
          tAfter := 21000 } "b").2 ++
      (safeRestartTimerIfNeeded
        (safeRestartTimerIfNeeded
          { store := [{ id := "a", projectId := "p", description := "d", startedAt := 0,
                        completedAt := some 19000, isAutoCompleted := true,
                        jiraTicket := none }],
            remote := none, lastResumeAt := 0, lastIdle := true,
            isLocked := false }
          { getActiveFails := false, stopFails := false, getUserFails := false,
            startPostFails := false }
          { tCooldown := 20000, tCheck := 20800, tStart := 20900,
            tAfter := 21000 } "b").1
        { getActiveFails := false, stopFails := false, getUserFails := false,
          startPostFails := false }
        { tCooldown := 25000, tCheck := 25800, tStart := 25900,
          tAfter := 26000 } "c").2) ≤ 1 :=
  ⟨by decide, by decide,
    C5_cooldown_at_most_one_resume
      { store := [{ id := "a", projectId := "p", description := "d", startedAt := 0,
                    completedAt := some 19000, isAutoCompleted := true,
                    jiraTicket := none }],
        remote := none, lastResumeAt := 0, lastIdle := true, isLocked := false }
      { getActiveFails := false, stopFails := false, getUserFails := false,
        startPostFails := false }
      { getActiveFails := false, stopFails := false, getUserFails := false,
        startPostFails := false }
      { tCooldown := 20000, tCheck := 20800, tStart := 20900, tAfter := 21000 }
      { tCooldown := 25000, tCheck := 25800, tStart := 25900, tAfter := 26000 }
      "b" "c" (by decide) (by decide)⟩

/-- C4: on a transition to active with the cooldown elapsed, when the
latest session is closed, auto-completed, completed within the 2-hour
freshness window, has a (non-empty) projectId, no remote timer is active,
the remote calls succeed and the generated id is fresh, the resume starts
exactly one remote timer carrying the projectId and description of that session
and appends exactly one new session, open and with `isAutoCompleted`
false. -/
theorem C4_eligible_resume_one_timer_one_session (st : MonitorState)
    (env : Env) (tm : ResumeTimes) (newId : String) (s : Session) (c : Int)
    (hcool : ¬ tm.tCooldown - st.lastResumeAt < 10000)
    (hlatest : pickLatest st.store = some s)
    (hclosed : s.completedAt = some c)
    (hauto : s.isAutoCompleted = true)
    (hfresh : c > tm.tCheck - 2 * 60 * 60 * 1000)
    (hproj : s.projectId ≠ "")
    (hremote : st.remote = none)
    (huser : env.getUserFails = false)
    (hpost : env.startPostFails = false)
    (hnewid : st.store.any (fun u => u.id == newId) = false) :
    safeRestartTimerIfNeeded st env tm newId =
      ({ st with
          store := st.store ++
            [{ id := newId, projectId := s.projectId, description := s.description,
               startedAt := tm.tStart, completedAt := none,
               isAutoCompleted := false, jiraTicket := none }],
          remote := some { projectId := s.projectId, description := s.description },
          lastResumeAt := tm.tAfter },
        [Event.remoteStart s.projectId s.description,
         Event.dbAppend newId s.projectId s.description tm.tStart]) := by
  have hgl : getLatestSession st.store = Except.ok s := by
    simp [getLatestSession, hlatest]
  have hobs : observedActive st env = none := by
    simp [observedActive, hremote]
  have hcond : (s.isAutoCompleted
      && decide (s.completedAt.getD 0 > tm.tCheck - 2 * 60 * 60 * 1000)
      && !s.projectId.isEmpty) = true := by
    rw [hclosed, hauto]
    have hne : s.projectId.isEmpty = false := by
      cases he : s.projectId.isEmpty with
      | false => rfl
      | true => exact absurd ((String.isEmpty_iff s.projectId).mp he) hproj
    simp [hne]
    omega
  have hstart : startTimer st env s.projectId s.description newId tm.tStart =
      ({ st with
          store := st.store ++
            [{ id := newId, projectId := s.projectId, description := s.description,
               startedAt := tm.tStart, completedAt := none,
               isAutoCompleted := false, jiraTicket := none }],
          remote := some { projectId := s.projectId, description := s.description } },
        [Event.remoteStart s.projectId s.description,
         Event.dbAppend newId s.projectId s.description tm.tStart]) := by
    unfold startTimer logSessionStart
    rw [huser, hpost]
    simp [hnewid]
  unfold safeRestartTimerIfNeeded
  rw [if_neg hcool, hgl, hobs]
  simp only [hcond, if_true, hstart]

/-- C4 witness: a fresh auto-completed session resumed 20 s after the
stop: one remote start, one appended open session with autoCompleted
false. -/
theorem C4_eligible_resume_one_timer_one_session_witness :
    (¬ (20000 : Int) - 0 < 10000) ∧
    pickLatest [{ id := "a", projectId := "p", description := "d", startedAt := 0,
                  completedAt := some 19000, isAutoCompleted := true,
                  jiraTicket := none }] =
      some { id := "a", projectId := "p", description := "d", startedAt := 0,
             completedAt := some 19000, isAutoCompleted := true,
             jiraTicket := none } ∧
    safeRestartTimerIfNeeded
        { store := [{ id := "a", projectId := "p", description := "d", startedAt := 0,
                      completedAt := some 19000, isAutoCompleted := true,
                      jiraTicket := none }],
          remote := none, lastResumeAt := 0, lastIdle := true,
          isLocked := false }
        { getActiveFails := false, stopFails := false, getUserFails := false,
          startPostFails := false }
        { tCooldown := 20000, tCheck := 20800, tStart := 20900,
          tAfter := 21000 } "b" =
      ({ store := [{ id := "a", projectId := "p", description := "d", startedAt := 0,
                     completedAt := some 19000, isAutoCompleted := true,
                     jiraTicket := none },
                   { id := "b", projectId := "p", description := "d",
                     startedAt := 20900, completedAt := none,
                     isAutoCompleted := false, jiraTicket := none }],
         remote := some { projectId := "p", description := "d" },
         lastResumeAt := 21000, lastIdle := true, isLocked := false },
        [Event.remoteStart "p" "d", Event.dbAppend "b" "p" "d" 20900]) :=
  ⟨by decide, by decide,
    C4_eligible_resume_one_timer_one_session
      { store := [{ id := "a", projectId := "p", description := "d", startedAt := 0,
                    completedAt := some 19000, isAutoCompleted := true,
                    jiraTicket := none }],
        remote := none, lastResumeAt := 0, lastIdle := true, isLocked := false }
      { getActiveFails := false, stopFails := false, getUserFails := false,
        startPostFails := false }
      { tCooldown := 20000, tCheck := 20800, tStart := 20900, tAfter := 21000 }
      "b"
      { id := "a", projectId := "p", description := "d", startedAt := 0,
        completedAt := some 19000, isAutoCompleted := true, jiraTicket := none }
      19000 (by decide) (by decide) rfl rfl (by decide)
      (by decide) rfl rfl rfl (by decide)⟩

/-- C6 (amended): provided the session table is non-empty, a
transition-to-inactive tick — idle ≥ 300 s on the idle poll, or a locked
edge on the lock poll — while a remote timer is active (and the lookup and
stop calls succeed) first stops the remote timer and then completes the
open local session with `completedAt = now` and `autoCompleted = true`, in
that order, on both trigger paths. -/
theorem C6_inactive_stops_then_closes (st : MonitorState) (env : Env)
    (idleTime now : Int) (tm : ResumeTimes) (newId : String)
    (rt : RemoteTimer)
    (hidle : idleTime ≥ 300)
    (hlock : st.isLocked = false)
    (hremote : st.remote = some rt)
    (hga : env.getActiveFails = false)
    (hstop : env.stopFails = false)
    (hne : st.store ≠ []) :
    (∃ tail,
      (idleTick st env idleTime now tm newId).2 =
        Event.remoteStop :: Event.dbComplete now true :: tail ∧
      (idleTick st env idleTime now tm newId).1.store =
        completeLatestSession st.store now true ∧
      (idleTick st env idleTime now tm newId).1.remote = none) ∧
    (∃ tail,
      (lockTick st env true now tm newId).2 =
        Event.remoteStop :: Event.dbComplete now true :: tail ∧
      (lockTick st env true now tm newId).1.store =
        completeLatestSession st.store now true ∧
      (lockTick st env true now tm newId).1.remote = none) := by
  have hobs : observedActive st env = some rt := by
    simp [observedActive, hga, hremote]
  obtain ⟨latest, hlat⟩ :=
    Option.isSome_iff_exists.mp (pickLatest_isSome st.store hne)
  have hgl : getLatestSession st.store = Except.ok latest := by
    simp [getLatestSession, hlat]
  have hstl : stopTimerAndLog st env now =
      ({ st with remote := none,
                 store := completeLatestSession st.store now true },
        [Event.remoteStop, Event.dbComplete now true] ++
          (match latest.jiraTicket with
           | some ticket =>
             if (now - latest.startedAt + 500) / 1000 ≥ 60 then
               [Event.jiraLog ticket ((now - latest.startedAt + 500) / 1000)]
             else []
           | none => []),
        true) := by
    unfold stopTimerAndLog
    rw [hobs, hgl]
    simp [hstop]
  have hobs2 : observedActive { st with isLocked := true } env = some rt := by
    simp [observedActive, hga, hremote]
  have hstl2 : stopTimerAndLog { st with isLocked := true } env now =
      ({ st with isLocked := true, remote := none,
                 store := completeLatestSession st.store now true },
        [Event.remoteStop, Event.dbComplete now true] ++
          (match latest.jiraTicket with
           | some ticket =>
             if (now - latest.startedAt + 500) / 1000 ≥ 60 then
               [Event.jiraLog ticket ((now - latest.startedAt + 500) / 1000)]
             else []
           | none => []),
        true) := by
    unfold stopTimerAndLog
    rw [hobs2]
    simp [hgl, hstop]
  constructor
  · refine ⟨(match latest.jiraTicket with
             | some ticket =>
               if (now - latest.startedAt + 500) / 1000 ≥ 60 then
                 [Event.jiraLog ticket ((now - latest.startedAt + 500) / 1000)]
               else []
             | none => []), ?_, ?_, ?_⟩ <;>
      simp [idleTick, hidle, hstl]
  · refine ⟨(match latest.jiraTicket with
             | some ticket =>
               if (now - latest.startedAt + 500) / 1000 ≥ 60 then
                 [Event.jiraLog ticket ((now - latest.startedAt + 500) / 1000)]
               else []
             | none => []), ?_, ?_, ?_⟩ <;>
      simp [lockTick, hlock, hstl2]

/-- C6 witness: idle 305 s and a locked edge, one open session, active
remote timer: both tick paths emit the remote stop followed by the local
completion and clear the remote timer. -/
theorem C6_inactive_stops_then_closes_witness :
    ((305 : Int) ≥ 300) ∧
    (({ store := [{ id := "a", projectId := "p", description := "d", startedAt := 0,
                      completedAt := none, isAutoCompleted := false,
                      jiraTicket := none }],
          remote := some { projectId := "p", description := "d" },
          lastResumeAt := 0, lastIdle := false, isLocked := false }
        : MonitorState).store ≠ []) ∧
    ((∃ tail,
      (idleTick
        { store := [{ id := "a", projectId := "p", description := "d", startedAt := 0,
                      completedAt := none, isAutoCompleted := false,
                      jiraTicket := none }],
          remote := some { projectId := "p", description := "d" },
          lastResumeAt := 0, lastIdle := false, isLocked := false }
        { getActiveFails := false, stopFails := false, getUserFails := false,
          startPostFails := false } 305 1000
        { tCooldown := 0, tCheck := 0, tStart := 0, tAfter := 0 } "x").2 =
        Event.remoteStop :: Event.dbComplete 1000 true :: tail ∧
      (idleTick
        { store := [{ id := "a", projectId := "p", description := "d", startedAt := 0,
                      completedAt := none, isAutoCompleted := false,
                      jiraTicket := none }],
          remote := some { projectId := "p", description := "d" },
          lastResumeAt := 0, lastIdle := false, isLocked := false }
        { getActiveFails := false, stopFails := false, getUserFails := false,
          startPostFails := false } 305 1000
        { tCooldown := 0, tCheck := 0, tStart := 0, tAfter := 0 } "x").1.store =
        completeLatestSession
          [{ id := "a", projectId := "p", description := "d", startedAt := 0,
             completedAt := none, isAutoCompleted := false,
             jiraTicket := none }] 1000 true ∧
      (idleTick
        { store := [{ id := "a", projectId := "p", description := "d", startedAt := 0,
                      completedAt := none, isAutoCompleted := false,
                      jiraTicket := none }],
          remote := some { projectId := "p", description := "d" },
          lastResumeAt := 0, lastIdle := false, isLocked := false }
        { getActiveFails := false, stopFails := false, getUserFails := false,
          startPostFails := false } 305 1000
        { tCooldown := 0, tCheck := 0, tStart := 0, tAfter := 0 } "x").1.remote =
        none) ∧
     (∃ tail,
      (lockTick
        { store := [{ id := "a", projectId := "p", description := "d", startedAt := 0,
                      completedAt := none, isAutoCompleted := false,
                      jiraTicket := none }],
          remote := some { projectId := "p", description := "d" },
          lastResumeAt := 0, lastIdle := false, isLocked := false }
        { getActiveFails := false, stopFails := false, getUserFails := false,
          startPostFails := false } true 1000
        { tCooldown := 0, tCheck := 0, tStart := 0, tAfter := 0 } "x").2 =
        Event.remoteStop :: Event.dbComplete 1000 true :: tail ∧
      (lockTick
        { store := [{ id := "a", projectId := "p", description := "d", startedAt := 0,
                      completedAt := none, isAutoCompleted := false,
                      jiraTicket := none }],
          remote := some { projectId := "p", description := "d" },
          lastResumeAt := 0, lastIdle := false, isLocked := false }
        { getActiveFails := false, stopFails := false, getUserFails := false,
          startPostFails := false } true 1000
        { tCooldown := 0, tCheck := 0, tStart := 0, tAfter := 0 } "x").1.store =
        completeLatestSession
          [{ id := "a", projectId := "p", description := "d", startedAt := 0,
             completedAt := none, isAutoCompleted := false,
             jiraTicket := none }] 1000 true ∧
      (lockTick
        { store := [{ id := "a", projectId := "p", description := "d", startedAt := 0,
                      completedAt := none, isAutoCompleted := false,
                      jiraTicket := none }],
          remote := some { projectId := "p", description := "d" },
          lastResumeAt := 0, lastIdle := false, isLocked := false }
        { getActiveFails := false, stopFails := false, getUserFails := false,
          startPostFails := false } true 1000
        { tCooldown := 0, tCheck := 0, tStart := 0, tAfter := 0 } "x").1.remote =
        none)) :=
  ⟨by decide, by decide,
    C6_inactive_stops_then_closes
      { store := [{ id := "a", projectId := "p", description := "d", startedAt := 0,
                      completedAt := none, isAutoCompleted := false,
                      jiraTicket := none }],
          remote := some { projectId := "p", description := "d" },
          lastResumeAt := 0, lastIdle := false, isLocked := false }
      { getActiveFails := false, stopFails := false, getUserFails := false,
          startPostFails := false } 305 1000
      { tCooldown := 0, tCheck := 0, tStart := 0, tAfter := 0 } "x"
      { projectId := "p", description := "d" }
      (by decide) rfl rfl rfl rfl (by decide)⟩

/-- C6 counterexample: with an active remote timer but an empty local
table, the tick aborts on the `getLatestSession` throw before the remote
stop is attempted: the remote timer stays active and nothing is logged,
refuting the claim for that state. -/
theorem C6_counterexample :
    idleTick
      { store := [], remote := some { projectId := "p", description := "d" },
        lastResumeAt := 0, lastIdle := false, isLocked := false }
      { getActiveFails := false, stopFails := false, getUserFails := false,
        startPostFails := false } 305 1000
      { tCooldown := 0, tCheck := 0, tStart := 0, tAfter := 0 } "x" =
      ({ store := [], remote := some { projectId := "p", description := "d" },
         lastResumeAt := 0, lastIdle := false, isLocked := false }, []) := by
  decide

end Clocktopus
